import Mathlib

/-
Verification of the soft-body physics engine of the squish-dango repository.

The engine lives in src/core/PhysicsEngine.ts (class PhysicsEngine) with one
helper routine from src/core/InputController.ts (applyTowardsMid).  The
definitions below are a shallow embedding of that code: JS numbers are modelled
as real numbers, matter-js bodies as records of position / velocity / angular
velocity / accumulated force, matter-js constraints as records of their two
endpoint references, stiffness and optional explicit rest length.  The matter-js
calls used by the engine are modelled by their documented effect:
Body.applyForce at the body position adds the force vector to the accumulated
force, Body.setVelocity / Body.setPosition / Body.setAngularVelocity overwrite
the corresponding field, Constraint.create records the given fields (when no
length is given matter-js defaults it to the creation-time distance, which the
engine never reads; this default is modelled as restLength = none).
The matter-js integrator Engine.update is outside the repository and is not
modelled; every claim below concerns the engine's own state updates and force
applications, each of which is embedded as its own definition, named after the
source method it translates.
-/

noncomputable section

namespace SquishDango

/-- Reference to a mass point of the soft body: the designated center body or
the outer body with a given ring index. -/
inductive PIdx where
  | center : PIdx
  | outer (i : Nat) : PIdx
deriving DecidableEq

/-- A matter-js body as the engine observes it: position, velocity, angular
velocity and the force accumulator written by Body.applyForce. -/
structure BodyM where
  pos : ℝ × ℝ
  vel : ℝ × ℝ
  angVel : ℝ
  force : ℝ × ℝ

/-- A matter-js constraint as created by the engine: two endpoint bodies, a
stiffness, and the explicit rest length when one was passed to
Constraint.create (none models the matter-js default of the creation-time
distance, which the engine never reads back). -/
structure ConstraintM where
  bodyA : PIdx
  bodyB : PIdx
  stiffness : ℝ
  restLength : Option ℝ

/-- The SoftBody record of PhysicsEngine.ts: one center body and the ordered
ring of outer bodies.  The constraints of the soft body are tracked in the
engine state through the ringConstraints / spokeConstraints lists, which in the
source alias the same constraint objects. -/
structure SoftBodyM where
  center : BodyM
  outer : List BodyM

/-- The mutable fields of class PhysicsEngine (PhysicsEngine.ts lines 9-28).
The source keeps the created constraints in softBody.constraints and again, by
reference, split into ringConstraints and spokeConstraints, with the map
baseStiffness recording each constraint's creation-time stiffness.  Since every
mutation and read of constraint stiffness goes through the two split lists and
the map always holds an entry for every live constraint, the three containers
are embedded as the two lists `ring` and `spoke` of pairs of a constraint and
its recorded base stiffness. -/
structure EngineState where
  softBody : Option SoftBodyM
  width : ℝ
  height : ℝ
  isInteracting : Bool
  interactBlend : ℝ
  ring : List (ConstraintM × ℝ)
  spoke : List (ConstraintM × ℝ)
  baseRadius : ℝ
  recoveryGain : ℝ
  anchors : Option (List (ℝ × ℝ))
  anchorKBase : ℝ
  anchorKInteract : ℝ
  anchorSnapDist : ℝ
  anchorDampInteract : ℝ
  anchorDampIdle : ℝ

/-- Initial engine state: the field initializers of class PhysicsEngine
(lines 12-28): no soft body, zero bounds, not interacting, zero blend and
recovery, empty constraint caches, baseRadius 80, no anchors, and the anchor
tuning constants of lines 24-28. -/
def initState : EngineState where
  softBody := none
  width := 0
  height := 0
  isInteracting := false
  interactBlend := 0
  ring := []
  spoke := []
  baseRadius := 80
  recoveryGain := 0
  anchors := none
  anchorKBase := 0.0012
  anchorKInteract := 0.0006
  anchorSnapDist := 0.8
  anchorDampInteract := 0.75
  anchorDampIdle := 0.92

/-- setInteracting (lines 38-40). -/
def setInteracting (active : Bool) (s : EngineState) : EngineState :=
  { s with isInteracting := active }

/-- Body.applyForce at the body's own position: the force is added to the
accumulator (no torque arises because the application point offset is zero). -/
def applyForce (f : ℝ × ℝ) (b : BodyM) : BodyM :=
  { b with force := (b.force.1 + f.1, b.force.2 + f.2) }

/-- A freshly created body at a position: Bodies.circle followed by the
explicit zeroing of velocity and angular velocity the builders perform. -/
def freshBody (p : ℝ × ℝ) : BodyM where
  pos := p
  vel := (0, 0)
  angVel := 0
  force := (0, 0)

/-- The signal-update portion of update (lines 250-261): first-order blend of
the interaction flag with factor min(1, dt / tau), tau = 120 ms while
interacting and 900 ms while idle, and the linear recovery ramp that is forced
to 0 while interacting and otherwise grows by dt / 24000, saturating at 1. -/
def updateSignals (deltaMs : ℝ) (s : EngineState) : EngineState :=
  let target : ℝ := if s.isInteracting then 1 else 0
  let tau : ℝ := if s.isInteracting then 120 else 900
  let blend := s.interactBlend + (target - s.interactBlend) * min 1 (deltaMs / tau)
  let rg : ℝ := if s.isInteracting then 0 else min 1 (s.recoveryGain + deltaMs / 24000)
  { s with interactBlend := blend, recoveryGain := rg }

/-- One host step as far as the interaction signals are concerned: the host
sets the interaction flag, then calls update(dt). -/
def stepSignals (s : EngineState) (p : Bool × ℝ) : EngineState :=
  updateSignals p.2 (setInteracting p.1 s)

/-- Modelled from the spec: the exponential first-order filter the spec claims
for the interaction blend, blend + (target - blend) * (1 - exp(-dt / tau)),
with tau = 120 ms while active and 900 ms while idle.  This definition follows
the spec's words (spec 4.3) and exists only to be compared against the source
formula embedded in updateSignals. -/
def specExpBlendStep (interacting : Bool) (deltaMs blend : ℝ) : ℝ :=
  let target : ℝ := if interacting then 1 else 0
  let tau : ℝ := if interacting then 120 else 900
  blend + (target - blend) * (1 - Real.exp (-(deltaMs / tau)))

/-- The outBlend computed by applyConstraintSoftening (lines 275-277): the
interaction blend while interacting, otherwise 1 - recoveryGain ^ 1.5. -/
def outBlendOf (s : EngineState) : ℝ :=
  if s.isInteracting then s.interactBlend else 1 - s.recoveryGain ^ (1.5 : ℝ)

/-- Ring-constraint stiffness scale (line 278): 1.0 + (0.20 - 1.0) * outBlend. -/
def ringScale (outBlend : ℝ) : ℝ := 1.0 + (0.20 - 1.0) * outBlend

/-- Spoke-constraint stiffness scale (line 279): 1.0 + (0.4 - 1.0) * outBlend. -/
def spokeScale (outBlend : ℝ) : ℝ := 1.0 + (0.4 - 1.0) * outBlend

/-- The loop body of applyConstraintSoftening (lines 280-287): the constraint's
stiffness is overwritten with its recorded base stiffness times the scale.  In
the source the base is fetched as baseStiffness.get(c) with fallbacks for a
missing map entry; the builders register every constraint in the map at
creation, which the pairing of each constraint with its base models. -/
def soften (scale : ℝ) (cb : ConstraintM × ℝ) : ConstraintM × ℝ :=
  ({ cb.1 with stiffness := cb.2 * scale }, cb.2)

/-- applyConstraintSoftening (lines 273-288). -/
def applyConstraintSoftening (s : EngineState) : EngineState :=
  if s.softBody.isSome then
    { s with
      ring := s.ring.map (soften (ringScale (outBlendOf s))),
      spoke := s.spoke.map (soften (spokeScale (outBlendOf s))) }
  else s

/-- The radial-pressure gain k of applyRadialPressure (lines 295-300):
baseK = 0.00025, interpolated toward interactKMax = 0.0010 by the interaction
blend while interacting, and toward recoverKMax = 0.0006 by the recovery gain
while idle. -/
def radialGain (interacting : Bool) (interactBlend recoveryGain : ℝ) : ℝ :=
  let baseK : ℝ := 0.00025
  let interactKMax : ℝ := 0.0010
  let recoverKMax : ℝ := 0.0006
  if interacting then baseK + (interactKMax - baseK) * interactBlend
  else baseK + (recoverKMax - baseK) * recoveryGain

/-- The per-body loop of applyRadialPressure (lines 301-315): the distance r
from the center uses Math.hypot(dx, dy) || 1, i.e. a fallback divisor of 1 when
the point coincides with the center; a spring force (baseRadius - r) * k along
the unit vector from center to point is applied, and when r exceeds
baseRadius * 1.25 an extra inward force 0.003 * (r - baseRadius * 1.25) along
the same direction is applied. -/
def applyRadialPressurePoint (interacting : Bool) (interactBlend recoveryGain : ℝ)
    (baseRadius cx cy : ℝ) (body : BodyM) : BodyM :=
  let dx := body.pos.1 - cx
  let dy := body.pos.2 - cy
  let hypdist := Real.sqrt (dx ^ 2 + dy ^ 2)
  let r := if hypdist = 0 then 1 else hypdist
  let nx := dx / r
  let ny := dy / r
  let dr := baseRadius - r
  let k := radialGain interacting interactBlend recoveryGain
  let body1 := applyForce (nx * dr * k, ny * dr * k) body
  let clampMax := baseRadius * 1.25
  if r > clampMax then
    let over := r - clampMax
    let kClamp : ℝ := 0.003
    applyForce (-nx * over * kClamp, -ny * over * kClamp) body1
  else body1

/-- applyRadialPressure (lines 291-316): the per-body update mapped over the
outer ring, with the center read before the loop. -/
def applyRadialPressure (s : EngineState) : EngineState :=
  match s.softBody with
  | none => s
  | some sb =>
    let cx := sb.center.pos.1
    let cy := sb.center.pos.2
    { s with
      softBody := some
        { sb with
          outer := sb.outer.map
            (applyRadialPressurePoint s.isInteracting s.interactBlend s.recoveryGain
              s.baseRadius cx cy) } }

/-- The per-body part of applyBoundarySqueeze (lines 320-349): inward forces
within margins marginX = 16 and marginY = 60 with gain 0.0004 while interacting
and 0.0016 while idle, scaled by 2.2 for outer bodies and 0.6 for the center,
followed, whenever a nonzero force was produced, by overwriting the velocity
with velocity times damp, damp = 0.5 while interacting and 0.8 while idle. -/
def applyBoundarySqueezePoint (interacting : Bool) (width height : ℝ) (isBodyOuter : Bool)
    (body : BodyM) : BodyM :=
  let marginX : ℝ := 16
  let marginY : ℝ := 60
  let kBase : ℝ := 0.0016
  let kInteract : ℝ := 0.0004
  let kx := if interacting then kInteract else kBase
  let ky := if interacting then kInteract else kBase
  let damp : ℝ := if interacting then 0.5 else 0.8
  let x := body.pos.1
  let y := body.pos.2
  let fx := (if x < marginX then (marginX - x) * kx else 0)
    + (if x > width - marginX then -((x - (width - marginX)) * kx) else 0)
  let fy := (if y < marginY then (marginY - y) * ky else 0)
    + (if y > height - marginY then -((y - (height - marginY)) * ky) else 0)
  let scale : ℝ := if isBodyOuter then 2.2 else 0.6
  let fx := fx * scale
  let fy := fy * scale
  if fx ≠ 0 ∨ fy ≠ 0 then
    { body with
      force := (body.force.1 + fx, body.force.2 + fy),
      vel := (body.vel.1 * damp, body.vel.2 * damp) }
  else body

/-- applyBoundarySqueeze (lines 318-350): the per-body update applied to the
center and every outer body; the scale test outer.includes(body) is true
exactly for the outer bodies. -/
def applyBoundarySqueeze (s : EngineState) : EngineState :=
  match s.softBody with
  | none => s
  | some sb =>
    { s with
      softBody := some
        { center := applyBoundarySqueezePoint s.isInteracting s.width s.height false sb.center,
          outer := sb.outer.map
            (applyBoundarySqueezePoint s.isInteracting s.width s.height true) } }

/-- The per-body loop of applyAnchorAttraction (lines 357-373): when the
distance to the target anchor is below snapDist and the engine is not
interacting, the body is teleported onto the anchor with velocity and angular
velocity zeroed; otherwise a spring force (target - pos) * k is applied, and
while not interacting the velocity is additionally multiplied by damp. -/
def applyAnchorPoint (interacting : Bool) (k damp snapDist : ℝ) (target : ℝ × ℝ)
    (body : BodyM) : BodyM :=
  let dx := target.1 - body.pos.1
  let dy := target.2 - body.pos.2
  let dist := Real.sqrt (dx ^ 2 + dy ^ 2)
  if dist < snapDist ∧ interacting = false then
    { body with pos := target, vel := (0, 0), angVel := 0 }
  else
    let body1 := applyForce (dx * k, dy * k) body
    if interacting = false then
      { body1 with vel := (body1.vel.1 * damp, body1.vel.2 * damp) }
    else body1

/-- applyAnchorAttraction (lines 351-374): gain k and damping damp picked by
the interaction flag from the anchor tuning fields, then the per-body update
over index pairs i < outer.length and i < anchors.length; outer bodies beyond
the anchor list are left unchanged. -/
def applyAnchorAttraction (s : EngineState) : EngineState :=
  match s.softBody, s.anchors with
  | some sb, some anchors =>
    let k := if s.isInteracting then s.anchorKInteract else s.anchorKBase
    let damp := if s.isInteracting then s.anchorDampInteract else s.anchorDampIdle
    { s with
      softBody := some
        { sb with
          outer :=
            List.zipWith (fun b t => applyAnchorPoint s.isInteracting k damp s.anchorSnapDist t b)
              sb.outer anchors ++ sb.outer.drop anchors.length } }
  | _, _ => s

/-- applyTowardsMid of InputController.ts (lines 136-148): a pinch force of
magnitude min(60, |pinchDelta|) * 0.006 toward (sign +1 when closing) or away
from (sign -1) the midpoint, along the unit vector toward the midpoint, whose
length normalization uses the fallback divisor Math.hypot(vx, vy) || 1. -/
def applyTowardsMid (midX midY pinchDelta : ℝ) (body : BodyM) (closing : Bool) : BodyM :=
  let vx := midX - body.pos.1
  let vy := midY - body.pos.2
  let len0 := Real.sqrt (vx ^ 2 + vy ^ 2)
  let len := if len0 = 0 then 1 else len0
  let nx := vx / len
  let ny := vy / len
  let sign : ℝ := if closing then 1 else -1
  let magnitude := min 60 |pinchDelta| * 0.006
  applyForce (nx * sign * magnitude, ny * sign * magnitude) body

/-- Initial position of outer point i of a donut build (lines 50-52): angle
2 * pi / circleCount * i on the circle of the given radius around (x, y). -/
def donutOuterPos (x y radius : ℝ) (circleCount i : Nat) : ℝ × ℝ :=
  let angle := (Real.pi * 2 / circleCount) * i
  (x + Real.cos angle * radius, y + Real.sin angle * radius)

/-- Neighbor ring constraints of createSoftDonut (lines 62-67): outer i to
outer (i + 1) mod n at stiffness 0.30, no explicit rest length. -/
def neighborRing (n : Nat) : List ConstraintM :=
  (List.range n).map fun i => ⟨.outer i, .outer ((i + 1) % n), 0.30, none⟩

/-- Second-neighbor ring constraints (lines 70-75): outer i to outer
(i + 2) mod n at stiffness 0.20. -/
def secondRing (n : Nat) : List ConstraintM :=
  (List.range n).map fun i => ⟨.outer i, .outer ((i + 2) % n), 0.20, none⟩

/-- Third-neighbor ring constraints (lines 78-83): outer i to outer
(i + 3) mod n at stiffness 0.08. -/
def thirdRing (n : Nat) : List ConstraintM :=
  (List.range n).map fun i => ⟨.outer i, .outer ((i + 3) % n), 0.08, none⟩

/-- Diameter constraints (lines 86-93): outer i to outer (i + n / 2) mod n at
stiffness 0.12, created only when n is even. -/
def diameterRing (n : Nat) : List ConstraintM :=
  if n % 2 = 0 then
    (List.range n).map fun i => ⟨.outer i, .outer ((i + n / 2) % n), 0.12, none⟩
  else []

/-- Spoke constraints of createSoftDonut (lines 96-100): each outer point to
the center at stiffness 0.25 with explicit rest length radius. -/
def donutSpokes (n : Nat) (radius : ℝ) : List ConstraintM :=
  (List.range n).map fun i => ⟨.outer i, .center, 0.25, some radius⟩

/-- Registration of freshly created constraints in the baseStiffness map
(line 114 and line 218): each constraint is paired with its creation-time
stiffness as the recorded base. -/
def withBase (cs : List ConstraintM) : List (ConstraintM × ℝ) :=
  cs.map fun c => (c, c.stiffness)

/-- createSoftDonut (lines 42-118): records the base radius, creates the center
and circleCount outer bodies on the circle, pushes the neighbor, second, third
and (for even counts) diameter constraints onto ringConstraints and the spokes
onto spokeConstraints, zeroes all velocities, registers every constraint's base
stiffness, installs the new soft body and clears the anchors.  The source
performs no minimum check on circleCount.  The constraint caches are appended
to, matching the push calls on the existing arrays. -/
def createSoftDonut (x y radius : ℝ) (circleCount : Nat) (s : EngineState) : EngineState :=
  let center := freshBody (x, y)
  let outer := (List.range circleCount).map fun i =>
    freshBody (donutOuterPos x y radius circleCount i)
  let ringNew := neighborRing circleCount ++ secondRing circleCount
    ++ thirdRing circleCount ++ diameterRing circleCount
  let spokeNew := donutSpokes circleCount radius
  { s with
    baseRadius := radius,
    ring := s.ring ++ withBase ringNew,
    spoke := s.spoke ++ withBase spokeNew,
    softBody := some ⟨center, outer⟩,
    anchors := none }

/-- resetSoftDonut (lines 120-135): removes any existing soft body, clears the
constraint caches and both signals, then rebuilds through createSoftDonut. -/
def resetSoftDonut (x y radius : ℝ) (circleCount : Nat) (s : EngineState) : EngineState :=
  let s1 : EngineState :=
    { s with softBody := none, ring := [], spoke := [], recoveryGain := 0, interactBlend := 0 }
  createSoftDonut x y radius circleCount s1

/-- The interleaved second- and third-neighbor constraints of
createSoftAnchored (lines 190-200): for each i, first outer i to outer
(i + 2) mod n at stiffness 0.20, then outer i to outer (i + 3) mod n at
stiffness 0.08. -/
def anchoredSkipRing (n : Nat) : List ConstraintM :=
  (List.range n).flatMap fun i =>
    [⟨.outer i, .outer ((i + 2) % n), 0.20, none⟩,
     ⟨.outer i, .outer ((i + 3) % n), 0.08, none⟩]

/-- Spoke constraints of createSoftAnchored (lines 202-208): each outer point
to the center at stiffness 0.25 with explicit rest length equal to the point's
initial distance to the centroid. -/
def anchoredSpokes (anchors : List (ℝ × ℝ)) (cx cy : ℝ) : List ConstraintM :=
  anchors.enum.map fun ip =>
    ⟨.outer ip.1, .center, 0.25,
      some (Real.sqrt ((ip.2.1 - cx) ^ 2 + (ip.2.2 - cy) ^ 2))⟩

/-- createSoftAnchored (lines 170-221): rejects fewer than 3 anchors by an
early return that leaves the whole engine state untouched (the InvalidShape
condition of the spec); otherwise builds the center at the centroid, one outer
body per anchor, the neighbor and interleaved skip constraints, the spokes,
registers base stiffness, installs the soft body and stores a copy of the
anchors. -/
def createSoftAnchored (anchors : List (ℝ × ℝ)) (s : EngineState) : EngineState :=
  let n := anchors.length
  if n < 3 then s
  else
    let cx := (anchors.map Prod.fst).sum / n
    let cy := (anchors.map Prod.snd).sum / n
    let center := freshBody (cx, cy)
    let outer := anchors.map freshBody
    let ringNew := neighborRing n ++ anchoredSkipRing n
    let spokeNew := anchoredSpokes anchors cx cy
    { s with
      ring := s.ring ++ withBase ringNew,
      spoke := s.spoke ++ withBase spokeNew,
      softBody := some ⟨center, outer⟩,
      anchors := some anchors }

/-- resetSoftAnchored (lines 236-248): removes any existing soft body, clears
the constraint caches and both signals, then calls createSoftAnchored.  The
teardown happens unconditionally before the anchor count is checked. -/
def resetSoftAnchored (anchors : List (ℝ × ℝ)) (s : EngineState) : EngineState :=
  let s1 : EngineState :=
    { s with softBody := none, ring := [], spoke := [], recoveryGain := 0, interactBlend := 0 }
  createSoftAnchored anchors s1

/-- A representative engine state holding a live soft body: the result of the
host's start-up build of a 16-point donut. -/
def statePrior : EngineState := createSoftDonut 200 200 80 16 initState

/-- Helper: createSoftAnchored with fewer than 3 anchors is an early return
that leaves the engine state untouched. -/
lemma createSoftAnchored_reject (anchors : List (ℝ × ℝ)) (s : EngineState)
    (h : anchors.length < 3) : createSoftAnchored anchors s = s := by
  simp [createSoftAnchored, h]

/-- C1 (counterexample): resetSoftAnchored called with only 2 anchors on an
engine holding a live soft body does not leave the previous soft body
untouched: the teardown runs before the anchor count is checked, so the prior
body is destroyed and the engine is left with no soft body at all. -/
theorem reset_anchored_destroys_prior_body :
    statePrior.softBody ≠ none ∧
    ([((0:ℝ), (0:ℝ)), (10, 0)].length < 3) ∧
    (resetSoftAnchored [((0:ℝ), (0:ℝ)), (10, 0)] statePrior).softBody = none := by
  refine ⟨?_, by norm_num, ?_⟩
  · simp [statePrior, createSoftDonut]
  · simp [resetSoftAnchored, createSoftAnchored]

/-- C1 (corrected): with fewer than 3 anchors, createSoftAnchored is rejected
and leaves the engine state (and hence any existing soft body, constraints and
cached stiffness lists) untouched; resetSoftAnchored with fewer than 3 anchors
instead removes the existing soft body, clears the constraint caches and zeroes
both signals before the construction is rejected, leaving no soft body; and
createSoftDonut performs no minimum count check at all, constructing a soft
body for every circleCount. -/
theorem invalid_shape_construction_behavior (s : EngineState) (anchors : List (ℝ × ℝ))
    (h : anchors.length < 3) :
    createSoftAnchored anchors s = s ∧
    (resetSoftAnchored anchors s).softBody = none ∧
    (resetSoftAnchored anchors s).ring = [] ∧
    (resetSoftAnchored anchors s).spoke = [] ∧
    (resetSoftAnchored anchors s).recoveryGain = 0 ∧
    (resetSoftAnchored anchors s).interactBlend = 0 ∧
    ∀ (x y radius : ℝ) (n : Nat), ((createSoftDonut x y radius n s).softBody).isSome := by
  refine ⟨createSoftAnchored_reject anchors s h, ?_, ?_, ?_, ?_, ?_, ?_⟩
  · simp [resetSoftAnchored, createSoftAnchored_reject _ _ h]
  · simp [resetSoftAnchored, createSoftAnchored_reject _ _ h]
  · simp [resetSoftAnchored, createSoftAnchored_reject _ _ h]
  · simp [resetSoftAnchored, createSoftAnchored_reject _ _ h]
  · simp [resetSoftAnchored, createSoftAnchored_reject _ _ h]
  · intro x y radius n
    simp [createSoftDonut]

/-- Witness for invalid_shape_construction_behavior at a concrete input. -/
theorem invalid_shape_construction_behavior_witness :
    ([((0:ℝ), (0:ℝ)), (1, 1)].length < 3) ∧
    createSoftAnchored [((0:ℝ), (0:ℝ)), (1, 1)] initState = initState := by
  refine ⟨by norm_num, ?_⟩
  exact (invalid_shape_construction_behavior initState [((0:ℝ), (0:ℝ)), (1, 1)] (by norm_num)).1

/-- C2 (counterexample): with the blend at 0 and the flag just switched to
interacting, a step of exactly dt = 120 ms drives the blend all the way to 1,
whereas the exponential filter claimed by the spec would only reach
1 - exp(-1): the code uses the clamped linear factor min(1, dt / tau), not
1 - exp(-dt / tau). -/
theorem blend_filter_not_exponential :
    (updateSignals 120 (setInteracting true initState)).interactBlend ≠
      specExpBlendStep true 120 initState.interactBlend := by
  have h1 : (updateSignals 120 (setInteracting true initState)).interactBlend = 1 := by
    norm_num [updateSignals, setInteracting, initState]
  have h2 : specExpBlendStep true 120 initState.interactBlend = 1 - Real.exp (-1) := by
    norm_num [specExpBlendStep, initState]
  rw [h1, h2]
  have hp := Real.exp_pos (-1)
  intro hcontr
  nlinarith

/-- C2 (corrected): on every step the interaction blend is updated by the
first-order filter interactBlend += (target - interactBlend) * min(1, dt/tau),
with tau = 120 ms while the interaction flag is active and tau = 900 ms while
transitioning to idle; the update factor is the clamped linear ramp
min(1, dt/tau), not the exponential 1 - exp(-dt/tau) stated by the spec. -/
theorem blend_filter_linear_clamped (deltaMs : ℝ) (s : EngineState) :
    (updateSignals deltaMs s).interactBlend =
      s.interactBlend + ((if s.isInteracting then (1:ℝ) else 0) - s.interactBlend) *
        min 1 (deltaMs / (if s.isInteracting then (120:ℝ) else 900)) := rfl

/-- C7: every donut build with N outer points produces exactly N outer mass
points, appends exactly the neighbor, second, third and diameter ring links and
the N spokes to the caches, with N neighbor (offset-1) links, N spokes, and N
diameter links when N is even and none when N is odd. -/
theorem donut_build_link_counts (x y radius : ℝ) (n : Nat) (_h : 3 ≤ n) (s : EngineState) :
    ((createSoftDonut x y radius n s).softBody.map fun sb => sb.outer.length) = some n ∧
    (createSoftDonut x y radius n s).ring =
      s.ring ++ withBase (neighborRing n ++ secondRing n ++ thirdRing n ++ diameterRing n) ∧
    (createSoftDonut x y radius n s).spoke = s.spoke ++ withBase (donutSpokes n radius) ∧
    (neighborRing n).length = n ∧
    (donutSpokes n radius).length = n ∧
    (diameterRing n).length = (if n % 2 = 0 then n else 0) := by
  refine ⟨?_, rfl, rfl, ?_, ?_, ?_⟩
  · simp [createSoftDonut]
  · simp [neighborRing]
  · simp [donutSpokes]
  · unfold diameterRing
    split <;> simp_all

/-- Witness for donut_build_link_counts at a concrete input. -/
theorem donut_build_link_counts_witness :
    3 ≤ 4 ∧ (neighborRing 4).length = 4 ∧ (diameterRing 4).length = (if 4 % 2 = 0 then 4 else 0) := by
  have hthm := donut_build_link_counts 200 200 80 4 (by norm_num) initState
  exact ⟨by norm_num, hthm.2.2.2.1, hthm.2.2.2.2.2⟩

/-- C10: for a ring build with exactly 3 outer points, every skip-3 link
connects an outer point to itself, since (i + 3) mod 3 = i; the builder creates
these 3 degenerate self-constraints and includes them in the ring-constraint
cache of the built engine state. -/
theorem third_ring_self_links_at_three :
    (thirdRing 3).length = 3 ∧
    (∀ c ∈ thirdRing 3, c.bodyA = c.bodyB) ∧
    (createSoftDonut 200 200 80 3 initState).ring =
      withBase (neighborRing 3 ++ secondRing 3 ++ thirdRing 3 ++ diameterRing 3) := by
  refine ⟨by simp [thirdRing], ?_, ?_⟩
  · intro c hc
    simp only [thirdRing, List.mem_map, List.mem_range] at hc
    obtain ⟨i, hi, rfl⟩ := hc
    simp only []
    congr 1
    omega
  · simp [createSoftDonut, initState]

/-- Helper: softening a constraint twice with the same scale equals softening
it once, because the recorded base stiffness is kept alongside. -/
lemma soften_idem (sc : ℝ) (cb : ConstraintM × ℝ) : soften sc (soften sc cb) = soften sc cb := rfl

/-- Helper: the constraint-softening pass keeps the interaction fields and the
soft body, so its outBlend is unchanged. -/
lemma applyConstraintSoftening_fields (s : EngineState) :
    (applyConstraintSoftening s).softBody = s.softBody ∧
    (applyConstraintSoftening s).isInteracting = s.isInteracting ∧
    (applyConstraintSoftening s).interactBlend = s.interactBlend ∧
    (applyConstraintSoftening s).recoveryGain = s.recoveryGain := by
  unfold applyConstraintSoftening
  split <;> exact ⟨rfl, rfl, rfl, rfl⟩

/-- C4: on every step with a live soft body, the stiffness applied to each ring
and spoke constraint equals its recorded base stiffness times the scale factor
(so applying the pass twice changes nothing: no compounding of a previously
scaled value), where the scale is interpolated by outBlend = interactBlend
while interacting and outBlend = 1 - recoveryGain ^ 1.5 while idle, the ring
scale reaching 0.2 x base and the spoke scale 0.4 x base at full blend. -/
theorem applied_stiffness_is_base_times_scale (s : EngineState) (h : s.softBody.isSome) :
    (∀ cb ∈ (applyConstraintSoftening s).ring,
      cb.1.stiffness = cb.2 * ringScale (outBlendOf s)) ∧
    (∀ cb ∈ (applyConstraintSoftening s).spoke,
      cb.1.stiffness = cb.2 * spokeScale (outBlendOf s)) ∧
    applyConstraintSoftening (applyConstraintSoftening s) = applyConstraintSoftening s ∧
    outBlendOf s =
      (if s.isInteracting then s.interactBlend else 1 - s.recoveryGain ^ (1.5 : ℝ)) ∧
    ringScale 1 = 0.2 ∧ spokeScale 1 = 0.4 := by
  have hmap : ∀ (sc : ℝ) (l : List (ConstraintM × ℝ)),
      (l.map (soften sc)).map (soften sc) = l.map (soften sc) := by
    intro sc l
    rw [List.map_map]
    exact List.map_congr_left fun cb _ => soften_idem sc cb
  refine ⟨?_, ?_, ?_, rfl, by norm_num [ringScale], by norm_num [spokeScale]⟩
  · intro cb hcb
    simp only [applyConstraintSoftening, h, if_true] at hcb
    obtain ⟨a, _, rfl⟩ := List.mem_map.mp hcb
    rfl
  · intro cb hcb
    simp only [applyConstraintSoftening, h, if_true] at hcb
    obtain ⟨a, _, rfl⟩ := List.mem_map.mp hcb
    rfl
  · have hsb := (applyConstraintSoftening_fields s).1
    have hob : outBlendOf (applyConstraintSoftening s) = outBlendOf s := by
      obtain ⟨-, h1, h2, h3⟩ := applyConstraintSoftening_fields s
      unfold outBlendOf
      rw [h1, h2, h3]
    conv_lhs => rw [applyConstraintSoftening]
    rw [hsb, if_pos h, hob]
    unfold applyConstraintSoftening
    rw [if_pos h]
    simp only [hmap]

/-- A small engine state with one live soft body and one ring constraint, used
as a concrete input for witnesses. -/
def sWit : EngineState :=
  { initState with
    softBody := some ⟨freshBody (0, 0), []⟩,
    ring := [(⟨.outer 0, .outer 1, 0.30, none⟩, 0.30)],
    isInteracting := true }

/-- Witness for applied_stiffness_is_base_times_scale at a concrete input. -/
theorem applied_stiffness_is_base_times_scale_witness :
    sWit.softBody.isSome ∧
    (∀ cb ∈ (applyConstraintSoftening sWit).ring,
      cb.1.stiffness = cb.2 * ringScale (outBlendOf sWit)) := by
  refine ⟨by simp [sWit], ?_⟩
  exact (applied_stiffness_is_base_times_scale sWit (by simp [sWit])).1

/-- Helper: one signal update keeps both signals inside the unit interval when
the timestep is nonnegative. -/
lemma updateSignals_bounds (dt : ℝ) (s : EngineState) (hdt : 0 ≤ dt)
    (h1 : 0 ≤ s.interactBlend) (h2 : s.interactBlend ≤ 1)
    (h3 : 0 ≤ s.recoveryGain) (_h4 : s.recoveryGain ≤ 1) :
    (0 ≤ (updateSignals dt s).interactBlend ∧ (updateSignals dt s).interactBlend ≤ 1) ∧
    (0 ≤ (updateSignals dt s).recoveryGain ∧ (updateSignals dt s).recoveryGain ≤ 1) := by
  have key : ∀ tgt tau : ℝ, (tgt = 0 ∨ tgt = 1) → 0 < tau →
      0 ≤ s.interactBlend + (tgt - s.interactBlend) * min 1 (dt / tau) ∧
      s.interactBlend + (tgt - s.interactBlend) * min 1 (dt / tau) ≤ 1 := by
    intro tgt tau htgt htau
    have hm0 : 0 ≤ min 1 (dt / tau) := le_min (by norm_num) (div_nonneg hdt htau.le)
    have hm1 : min 1 (dt / tau) ≤ 1 := min_le_left _ _
    rcases htgt with rfl | rfl <;> constructor <;> nlinarith
  unfold updateSignals
  cases hI : s.isInteracting
  · simp only [hI, Bool.false_eq_true, if_false]
    refine ⟨key 0 900 (Or.inl rfl) (by norm_num), ?_, min_le_left _ _⟩
    exact le_min (by norm_num) (by positivity)
  · simp only [hI, if_true]
    exact ⟨key 1 120 (Or.inr rfl) (by norm_num), le_refl 0, by norm_num⟩

/-- Helper: folding any sequence of (flag, dt) steps with nonnegative dt keeps
both signals inside the unit interval. -/
lemma foldSignals_bounds (l : List (Bool × ℝ)) (s : EngineState)
    (hdts : ∀ p ∈ l, 0 ≤ p.2)
    (h1 : 0 ≤ s.interactBlend) (h2 : s.interactBlend ≤ 1)
    (h3 : 0 ≤ s.recoveryGain) (h4 : s.recoveryGain ≤ 1) :
    (0 ≤ (l.foldl stepSignals s).interactBlend ∧ (l.foldl stepSignals s).interactBlend ≤ 1) ∧
    (0 ≤ (l.foldl stepSignals s).recoveryGain ∧ (l.foldl stepSignals s).recoveryGain ≤ 1) := by
  induction l generalizing s with
  | nil => exact ⟨⟨h1, h2⟩, h3, h4⟩
  | cons p tl ih =>
    simp only [List.foldl_cons]
    have hb := updateSignals_bounds p.2 (setInteracting p.1 s)
      (hdts p (List.mem_cons_self p tl)) h1 h2 h3 h4
    exact ih _ (fun q hq => hdts q (List.mem_cons_of_mem p hq))
      hb.1.1 hb.1.2 hb.2.1 hb.2.2

/-- C8: for every sequence of steps, each a setInteracting toggle followed by
update(dt) with dt >= 0, the interaction blend and recovery gain of the engine
started from its initial state always remain in [0, 1]; and on every step taken
while interacting the recovery gain is forced to 0. -/
theorem signals_remain_in_unit_interval (l : List (Bool × ℝ)) (h : ∀ p ∈ l, 0 ≤ p.2) :
    (0 ≤ (l.foldl stepSignals initState).interactBlend ∧
      (l.foldl stepSignals initState).interactBlend ≤ 1) ∧
    (0 ≤ (l.foldl stepSignals initState).recoveryGain ∧
      (l.foldl stepSignals initState).recoveryGain ≤ 1) ∧
    ∀ (dt : ℝ) (s : EngineState), (updateSignals dt (setInteracting true s)).recoveryGain = 0 := by
  have hb := foldSignals_bounds l initState h (by norm_num [initState])
    (by norm_num [initState]) (by norm_num [initState]) (by norm_num [initState])
  exact ⟨hb.1, hb.2, fun dt s => rfl⟩

/-- Witness for signals_remain_in_unit_interval at a concrete input. -/
theorem signals_remain_in_unit_interval_witness :
    (∀ p ∈ [(true, (1000:ℝ)), (false, 16)], 0 ≤ p.2) ∧
    (0 ≤ ([(true, (1000:ℝ)), (false, 16)].foldl stepSignals initState).interactBlend ∧
      ([(true, (1000:ℝ)), (false, 16)].foldl stepSignals initState).interactBlend ≤ 1) := by
  refine ⟨by norm_num, ?_⟩
  exact (signals_remain_in_unit_interval [(true, (1000:ℝ)), (false, 16)] (by norm_num)).1

/-- A body just outside the left margin with unit rightward velocity, used as
the concrete boundary-squeeze input. -/
def bCtr : BodyM := ⟨(-5, 200), (1, 0), 0, (0, 0)⟩

/-- C3 (counterexample): for the point at x = -5 with bounds 400 x 400 and unit
velocity, the velocity retained after the boundary damping multiplier is
strictly smaller while interacting (0.5) than while idle (0.8): the damping is
heavier while interacting, not lighter as the claim states. -/
theorem boundary_damping_heavier_while_interacting :
    (applyBoundarySqueezePoint true 400 400 true bCtr).vel.1 <
      (applyBoundarySqueezePoint false 400 400 true bCtr).vel.1 := by
  norm_num [applyBoundarySqueezePoint, bCtr]

/-- C3 (corrected): for every mass point inside the left boundary margin (and
clear of the right margin), boundary containment adds a force with positive
x-component equal to (16 - x) times the state-dependent gain times the
outer/center scale, followed by multiplying the velocity by the state-dependent
damping factor; the force gain while interacting (0.0004) is weaker than while
idle (0.0016), and the damping multiplier while interacting (0.5) is smaller
than while idle (0.8), so the velocity is damped more heavily while
interacting, not more lightly. -/
theorem boundary_squeeze_margin_force_and_damping (interacting isBodyOuter : Bool)
    (width height : ℝ) (b : BodyM)
    (h1 : b.pos.1 < 16) (h2 : b.pos.1 ≤ width - 16) :
    0 < (applyBoundarySqueezePoint interacting width height isBodyOuter b).force.1 - b.force.1 ∧
    (applyBoundarySqueezePoint interacting width height isBodyOuter b).force.1 - b.force.1 =
      (16 - b.pos.1) * (if interacting then (0.0004:ℝ) else 0.0016) *
        (if isBodyOuter then (2.2:ℝ) else 0.6) ∧
    (applyBoundarySqueezePoint interacting width height isBodyOuter b).vel =
      (b.vel.1 * (if interacting then (0.5:ℝ) else 0.8),
        b.vel.2 * (if interacting then (0.5:ℝ) else 0.8)) ∧
    ((0.0004:ℝ) < 0.0016) ∧ ((0.5:ℝ) < 0.8) := by
  have hx : (0:ℝ) < 16 - b.pos.1 := by linarith
  have hnr : ¬ (b.pos.1 > width - 16) := not_lt.mpr h2
  have hkx : (0:ℝ) < (if interacting = true then (0.0004:ℝ) else 0.0016) := by
    split <;> norm_num
  have hsc : (0:ℝ) < (if isBodyOuter = true then (2.2:ℝ) else 0.6) := by
    split <;> norm_num
  have hfx : 0 < ((16 - b.pos.1) * (if interacting = true then (0.0004:ℝ) else 0.0016) + 0) *
      (if isBodyOuter = true then (2.2:ℝ) else 0.6) := by
    have hp := mul_pos (mul_pos hx hkx) hsc
    nlinarith [hp]
  simp only [applyBoundarySqueezePoint]
  rw [if_pos h1, if_neg hnr, if_pos (Or.inl (ne_of_gt hfx))]
  refine ⟨by linarith [hfx], by ring, rfl, by norm_num, by norm_num⟩

/-- Witness for boundary_squeeze_margin_force_and_damping at a concrete
input. -/
theorem boundary_squeeze_margin_force_and_damping_witness :
    (bCtr.pos.1 < 16) ∧ (bCtr.pos.1 ≤ 400 - 16) ∧
    0 < (applyBoundarySqueezePoint false 400 400 true bCtr).force.1 - bCtr.force.1 := by
  refine ⟨by norm_num [bCtr], by norm_num [bCtr], ?_⟩
  exact (boundary_squeeze_margin_force_and_damping false true 400 400 bCtr
    (by norm_num [bCtr]) (by norm_num [bCtr])).1

/-- C5: in radial-pressure mode the force applied to an outer point at distance
S from the center (S as computed by the code, nonzero here) is
(baseRadius - S) times the gain along the unit vector from center to point,
plus, exactly when S exceeds baseRadius * 1.25, an extra inward corrective
force 0.003 times the excess; the gain interpolates from 0.00025 toward the
larger 0.0010 by the interaction blend while interacting, and while idle
interpolates by the recovery gain toward the cap 0.0006, which stays below
0.0006 for every recovery gain at most 1 and is strictly below the interacting
maximum 0.0010. -/
theorem radial_pressure_force_law (interacting : Bool) (ib rg R cx cy : ℝ) (b : BodyM) (S : ℝ)
    (hS : S = Real.sqrt ((b.pos.1 - cx) ^ 2 + (b.pos.2 - cy) ^ 2))
    (h0 : S ≠ 0) (hrg : rg ≤ 1) :
    (¬ S > R * 1.25 →
      (applyRadialPressurePoint interacting ib rg R cx cy b).force =
        (b.force.1 + (b.pos.1 - cx) / S * (R - S) * radialGain interacting ib rg,
          b.force.2 + (b.pos.2 - cy) / S * (R - S) * radialGain interacting ib rg)) ∧
    (S > R * 1.25 →
      (applyRadialPressurePoint interacting ib rg R cx cy b).force =
        (b.force.1 + (b.pos.1 - cx) / S * (R - S) * radialGain interacting ib rg
            + -((b.pos.1 - cx) / S) * (S - R * 1.25) * 0.003,
          b.force.2 + (b.pos.2 - cy) / S * (R - S) * radialGain interacting ib rg
            + -((b.pos.2 - cy) / S) * (S - R * 1.25) * 0.003)) ∧
    radialGain true ib rg = 0.00025 + (0.0010 - 0.00025) * ib ∧
    radialGain false ib rg ≤ 0.0006 ∧
    ((0.0006:ℝ) < 0.0010) ∧ ((0.00025:ℝ) < 0.0010) := by
  subst hS
  refine ⟨?_, ?_, by norm_num [radialGain], ?_, by norm_num, by norm_num⟩
  · intro hcl
    simp only [applyRadialPressurePoint, if_neg h0, if_neg hcl, applyForce]
  · intro hcl
    simp only [applyRadialPressurePoint, if_neg h0, if_pos hcl, applyForce]
  · simp only [radialGain, Bool.false_eq_true, if_false]
    nlinarith

/-- A body at distance 5 from the origin, used as the concrete radial-pressure
input. -/
def bRad : BodyM := ⟨(3, 4), (0, 0), 0, (0, 0)⟩

/-- Witness for radial_pressure_force_law at a concrete input. -/
theorem radial_pressure_force_law_witness :
    ((5:ℝ) = Real.sqrt ((bRad.pos.1 - 0) ^ 2 + (bRad.pos.2 - 0) ^ 2)) ∧
    ((5:ℝ) ≠ 0) ∧ ((0:ℝ) ≤ 1) ∧
    radialGain false 0 0 ≤ 0.0006 := by
  have hS : (5:ℝ) = Real.sqrt ((bRad.pos.1 - 0) ^ 2 + (bRad.pos.2 - 0) ^ 2) := by
    rw [show ((bRad.pos.1 - 0) ^ 2 + (bRad.pos.2 - 0) ^ 2 : ℝ) = 5 ^ 2 by norm_num [bRad],
      Real.sqrt_sq (by norm_num : (0:ℝ) ≤ 5)]
  exact ⟨hS, by norm_num, by norm_num,
    (radial_pressure_force_law false 0 0 80 0 0 bRad 5 hS (by norm_num) (by norm_num)).2.2.2.1⟩

/-- C6: in anchor-attraction mode, a point whose distance to its anchor is
below the snap distance while the engine is not interacting is set exactly onto
the anchor with velocity and angular velocity zeroed; while interacting the
snap never occurs: position, velocity and angular velocity are untouched and
the point receives only the spring force (target - pos) * k. -/
theorem anchor_snap_behavior (interacting : Bool) (k damp snapDist : ℝ) (target : ℝ × ℝ)
    (b : BodyM) :
    (interacting = false →
      Real.sqrt ((target.1 - b.pos.1) ^ 2 + (target.2 - b.pos.2) ^ 2) < snapDist →
      applyAnchorPoint interacting k damp snapDist target b =
        { b with pos := target, vel := (0, 0), angVel := 0 }) ∧
    (interacting = true →
      (applyAnchorPoint interacting k damp snapDist target b).pos = b.pos ∧
      (applyAnchorPoint interacting k damp snapDist target b).vel = b.vel ∧
      (applyAnchorPoint interacting k damp snapDist target b).angVel = b.angVel ∧
      (applyAnchorPoint interacting k damp snapDist target b).force =
        (b.force.1 + (target.1 - b.pos.1) * k, b.force.2 + (target.2 - b.pos.2) * k)) := by
  constructor
  · intro hi hd
    simp only [applyAnchorPoint]
    rw [if_pos ⟨hd, hi⟩]
  · intro hi
    simp only [applyAnchorPoint, applyForce]
    rw [if_neg (by simp [hi]), if_neg (by simp [hi])]
    exact ⟨rfl, rfl, rfl, rfl⟩

/-- A body at the origin with nonzero velocity and spin, used as the concrete
anchor-snap input. -/
def bAnch : BodyM := ⟨(0, 0), (3, 3), 1, (0, 0)⟩

/-- Witness for anchor_snap_behavior at a concrete input. -/
theorem anchor_snap_behavior_witness :
    (Real.sqrt ((0 - bAnch.pos.1) ^ 2 + (0 - bAnch.pos.2) ^ 2) < (0.8:ℝ)) ∧
    applyAnchorPoint false 0.0012 0.92 0.8 (0, 0) bAnch =
      { bAnch with pos := (0, 0), vel := (0, 0), angVel := 0 } := by
  have hd : Real.sqrt ((0 - bAnch.pos.1) ^ 2 + (0 - bAnch.pos.2) ^ 2) < (0.8:ℝ) := by
    norm_num [bAnch, Real.sqrt_zero]
  exact ⟨hd, (anchor_snap_behavior false 0.0012 0.92 0.8 (0, 0) bAnch).1 rfl hd⟩

/-- C9: when a distance computation meets a coincident pair (an outer point
exactly at the center in radial-pressure mode, or a pinch target exactly at the
pinch midpoint), the fallback divisor 1 is substituted for the zero length, the
normalized direction collapses to zero, and the resulting applied force is zero
so the body is left unchanged and the computation completes with finite
values. -/
theorem degenerate_distance_fallback (interacting : Bool) (ib rg R cx cy midX midY pd : ℝ)
    (closing : Bool) (b : BodyM) (hc : b.pos = (cx, cy)) (hm : b.pos = (midX, midY)) :
    applyRadialPressurePoint interacting ib rg R cx cy b = b ∧
    applyTowardsMid midX midY pd b closing = b ∧
    (if Real.sqrt ((b.pos.1 - cx) ^ 2 + (b.pos.2 - cy) ^ 2) = 0 then (1:ℝ)
      else Real.sqrt ((b.pos.1 - cx) ^ 2 + (b.pos.2 - cy) ^ 2)) = 1 := by
  have hcx : cx = b.pos.1 := by rw [hc]
  have hcy : cy = b.pos.2 := by rw [hc]
  have hmx : midX = b.pos.1 := by rw [hm]
  have hmy : midY = b.pos.2 := by rw [hm]
  subst hcx hcy hmx hmy
  refine ⟨?_, ?_, by simp⟩
  · simp only [applyRadialPressurePoint, sub_self, applyForce]
    norm_num
  · simp only [applyTowardsMid, sub_self, applyForce]
    norm_num

/-- A body at (5, 5), used as the concrete coincident-pair input. -/
def bMid : BodyM := ⟨(5, 5), (0, 0), 0, (0, 0)⟩

/-- Witness for degenerate_distance_fallback at a concrete input. -/
theorem degenerate_distance_fallback_witness :
    (bMid.pos = ((5:ℝ), (5:ℝ))) ∧
    applyRadialPressurePoint false 0 0 80 5 5 bMid = bMid ∧
    applyTowardsMid 5 5 12 bMid true = bMid := by
  have h := degenerate_distance_fallback false 0 0 80 5 5 5 5 12 true bMid rfl rfl
  exact ⟨rfl, h.1, h.2.1⟩

end SquishDango
